import Mathlib

/-!
Shallow embedding of `src/app.py` (a paginated keyword-search client):
the endpoint selection (`get_base_url`), the per-page fetch-and-parse
operation (`_fetch_and_parse_page`), and the page loop of `main`
(lines 450-475), together with the theorems that settle the claims about
them.  HTML markup is embedded as the results of the fixed CSS queries the
code performs; Python exceptions are embedded as `Except` values; Python
integers are Lean `Int`.
-/

namespace WolSearch

/-- Endpoint for `"ja"` (`get_base_url`, src/app.py line 97). -/
def jaBaseUrl : String := "https://wol.jw.org/ja/wol/s/r7/lp-j"

/-- Endpoint for `"en"` (`get_base_url`, src/app.py line 98). -/
def enBaseUrl : String := "https://wol.jw.org/en/wol/s/r1/lp-e"

/-- `get_base_url(lang)` (src/app.py lines 90-101): a two-entry dict lookup
with `urls.get(lang, urls["ja"])`, so an unrecognized language falls back to
the Japanese endpoint. -/
def get_base_url (lang : String) : String :=
  if lang = "ja" then jaBaseUrl
  else if lang = "en" then enBaseUrl
  else jaBaseUrl

/-- Model of Python `str.strip()` / the whitespace stripping of `int()`:
drop whitespace from both ends. -/
def pyStrip (s : String) : String :=
  ⟨((s.toList.dropWhile Char.isWhitespace).reverse.dropWhile
      Char.isWhitespace).reverse⟩

/-- Decimal value of a digit list (most significant first). -/
def digitsVal (cs : List Char) : Nat :=
  cs.foldl (fun a c => a * 10 + (c.toNat - 48)) 0

/-- Model of Python `int(s)` on decimal string literals: optional
surrounding whitespace, optional sign, then a non-empty digit run;
anything else is a `ValueError` (`none`). -/
def pyIntOfString? (s : String) : Option Int :=
  match (pyStrip s).toList with
  | [] => none
  | '-' :: rest =>
      if rest ≠ [] ∧ rest.all Char.isDigit then some (-(digitsVal rest : Int))
      else none
  | '+' :: rest =>
      if rest ≠ [] ∧ rest.all Char.isDigit then some ((digitsVal rest : Int))
      else none
  | cs =>
      if cs.all Char.isDigit then some ((digitsVal cs : Int)) else none

/-- Origin (scheme + host) of a URL, used to resolve root-relative hrefs. -/
def urlOrigin (base : String) : String :=
  match base.toList.splitOn '/' with
  | scheme :: _ :: host :: _ => (⟨scheme⟩ : String) ++ "//" ++ (⟨host⟩ : String)
  | _ => base

/-- Base URL with its last path segment removed, used to resolve relative
hrefs. -/
def urlDirname (base : String) : String :=
  (⟨List.intercalate ['/'] (base.toList.splitOn '/').dropLast⟩ : String) ++ "/"

/-- Model of `urllib.parse.urljoin(base, url)` restricted to the shapes this
program produces: an empty href yields the base, an absolute href is kept,
a root-relative href is resolved against the origin, and any other href is
resolved against the base's directory. -/
def urljoin (base url : String) : String :=
  if url = "" then base
  else if "http://".toList.isPrefixOf url.toList
          ∨ "https://".toList.isPrefixOf url.toList then url
  else if url.toList.head? = some '/' then urlOrigin base ++ url
  else urlDirname base ++ url

/-- An `<a>` tag as the code reads it: `get_text(strip=True)` and the
optional `href` attribute (`get("href", "")` defaults it to `""`). -/
structure LinkTag where
  text : String
  href : Option String
deriving DecidableEq

/-- The `li.caption` sub-element of a legacy result block:
`select_one("a.lnk")` may or may not find an anchor. -/
structure CaptionLi where
  lnk : Option LinkTag
deriving DecidableEq

/-- The `li.searchResult` sub-element of a legacy result block:
`select_one("div.document")` yields the snippet text when present. -/
structure SnippetLi where
  document : Option String
deriving DecidableEq

/-- One result block `rb` as the code queries it (src/app.py lines 132-166):
each field is the outcome of the corresponding `select_one` call
(`li.caption`, `li.searchResult`, `div.cardTitleBlock` presence,
`div.cardLine1` text, `div.cardLine2` text, first `a`, `div.cardTitleDetail`
text). -/
structure ResultBlock where
  caption : Option CaptionLi
  searchResult : Option SnippetLi
  cardTitleBlock : Bool
  cardLine1 : Option String
  cardLine2 : Option String
  anchor : Option LinkTag
  cardTitleDetail : Option String
deriving DecidableEq

/-- A page's markup as the code queries it: the two container selections
(`ul.results.resultContentDocument` and `li.navCard`, src/app.py lines
127-130) and the three pagination metadata lookups (lines 178-180), each a
`select_one` outcome (`none` = element absent) carrying an optional
`value` attribute (`none` = attribute absent). -/
structure Soup where
  legacyBlocks : List ResultBlock
  cardBlocks : List ResultBlock
  totalAttr : Option (Option String)
  pageSizeAttr : Option (Option String)
  pageNumberAttr : Option (Option String)
deriving DecidableEq

/-- One extracted result (src/app.py lines 169-174). -/
structure ResultRecord where
  title : String
  link : String
  snippet : String
  publication : String
deriving DecidableEq

/-- The container list the loop iterates over (src/app.py lines 127-130):
legacy containers, or card containers only when no legacy container
exists. -/
def resultBlocks (soup : Soup) : List ResultBlock :=
  if soup.legacyBlocks.isEmpty then soup.cardBlocks else soup.legacyBlocks

/-- Fields computed by the legacy branch of the block loop
(src/app.py lines 133-149), as a standalone extraction strategy. -/
def legacyFields (base : String) (rb : ResultBlock) : ResultRecord :=
  match rb.caption with
  | some caption_li =>
      let title :=
        match caption_li.lnk with
        | some link_tag => link_tag.text
        | none => ""
      let link :=
        match caption_li.lnk with
        | some link_tag => urljoin base (pyStrip (link_tag.href.getD ""))
        | none => ""
      let snippet :=
        match rb.searchResult with
        | some snippet_li => snippet_li.document.getD ""
        | none => ""
      ⟨title, link, snippet, ""⟩
  | none => ⟨"", "", "", ""⟩

/-- Fields computed by the card branch of the block loop
(src/app.py lines 150-164), as a standalone extraction strategy. -/
def cardFields (base : String) (rb : ResultBlock) : ResultRecord :=
  let title0 := rb.cardLine1.getD ""
  let title := if title0 = "" then rb.cardLine2.getD "" else title0
  let link :=
    match rb.anchor with
    | some link_tag => urljoin base (pyStrip (link_tag.href.getD ""))
    | none => ""
  ⟨title, link, "", rb.cardTitleDetail.getD ""⟩

/-- The candidate record computed for one block, transcribing the
if/elif/else of src/app.py lines 133-166: the legacy caption sub-element is
attempted first, then the card title block, else all fields are empty. -/
def blockRecord (base : String) (rb : ResultBlock) : ResultRecord :=
  match rb.caption with
  | some caption_li =>
      let title :=
        match caption_li.lnk with
        | some link_tag => link_tag.text
        | none => ""
      let link :=
        match caption_li.lnk with
        | some link_tag => urljoin base (pyStrip (link_tag.href.getD ""))
        | none => ""
      let snippet :=
        match rb.searchResult with
        | some snippet_li => snippet_li.document.getD ""
        | none => ""
      ⟨title, link, snippet, ""⟩
  | none =>
      if rb.cardTitleBlock then
        let title0 := rb.cardLine1.getD ""
        let title := if title0 = "" then rb.cardLine2.getD "" else title0
        let link :=
          match rb.anchor with
          | some link_tag => urljoin base (pyStrip (link_tag.href.getD ""))
          | none => ""
        ⟨title, link, "", rb.cardTitleDetail.getD ""⟩
      else ⟨"", "", "", ""⟩

/-- The post-filter `if title and link` (src/app.py line 168): keep a
candidate only when both title and link are non-empty strings. -/
def keepIfValid (r : ResultRecord) : Option ResultRecord :=
  if r.title ≠ "" ∧ r.link ≠ "" then some r else none

/-- A block's contribution to `items`: the candidate record, filtered. -/
def extractBlock (base : String) (rb : ResultBlock) : Option ResultRecord :=
  keepIfValid (blockRecord base rb)

/-- The `items` list built by the block loop (src/app.py lines 125-174). -/
def extractRecords (base : String) (soup : Soup) : List ResultRecord :=
  (resultBlocks soup).filterMap (extractBlock base)

/-- Python exceptions that the pagination code can raise: subscripting
`None` (`TypeError`), a missing attribute (`KeyError`), `int()` on a bad
literal (`ValueError`), `// 0` (`ZeroDivisionError`). -/
inductive PyErr where
  | typeError
  | keyError
  | valueError
  | zeroDivisionError
deriving DecidableEq

deriving instance DecidableEq for Except

/-- `soup.select_one(sel)["value"]` (src/app.py lines 178-180): raises
`TypeError` when the element is absent, `KeyError` when the attribute is
absent. -/
def getAttrValue : Option (Option String) → Except PyErr String
  | none => .error .typeError
  | some none => .error .keyError
  | some (some s) => .ok s

/-- `int(s)` with its `ValueError`. -/
def pyInt (s : String) : Except PyErr Int :=
  match pyIntOfString? s with
  | some n => .ok n
  | none => .error .valueError

/-- Python `a // b` (floor division) with its `ZeroDivisionError`. -/
def pyFloorDiv (a b : Int) : Except PyErr Int :=
  if b = 0 then .error .zeroDivisionError else .ok (Int.fdiv a b)

/-- The `result_info` dict (src/app.py lines 186-197). -/
structure ResultInfo where
  total : Int
  current_page : Int
  total_pages : Int
deriving DecidableEq

/-- The three metadata lookups followed by the three `int()` conversions,
in source order (src/app.py lines 178-183). -/
def readMeta (soup : Soup) : Except PyErr (Int × Int × Int) := do
  let total_str ← getAttrValue soup.totalAttr
  let page_size_str ← getAttrValue soup.pageSizeAttr
  let current_page_str ← getAttrValue soup.pageNumberAttr
  let total ← pyInt total_str
  let page_size ← pyInt page_size_str
  let current_page ← pyInt current_page_str
  return (total, page_size, current_page)

/-- The body of the inner `try` (src/app.py lines 178-190): metadata
lookups, integer conversions, `total_pages = (total + page_size - 1) //
page_size`, `has_next = current_page < total_pages`. -/
def inspectPagination (soup : Soup) : Except PyErr (Bool × ResultInfo) := do
  let (total, page_size, current_page) ← readMeta soup
  let total_pages ← pyFloorDiv (total + page_size - 1) page_size
  return (decide (current_page < total_pages),
          ⟨total, current_page, total_pages⟩)

/-- The fallback `result_info` of the inner `except` branch
(src/app.py lines 193-197). -/
def fallbackInfo (recordCount : Nat) : ResultInfo := ⟨(recordCount : Int), 1, 1⟩

/-- The inner `try/except (TypeError, KeyError)` (src/app.py lines 177-197):
only those two exceptions are absorbed into the single-page fallback; any
other exception (in particular `ValueError` from `int()`) propagates. -/
def inspect (soup : Soup) (recordCount : Nat) : Except PyErr (Bool × ResultInfo) :=
  match inspectPagination soup with
  | .error .typeError => .ok (false, fallbackInfo recordCount)
  | .error .keyError => .ok (false, fallbackInfo recordCount)
  | r => r

/-- The dict returned by `_fetch_and_parse_page` (src/app.py line 199). -/
structure FetchResult where
  items : List ResultRecord
  has_next : Bool
  result_info : ResultInfo
deriving DecidableEq

/-- The return value of the outer `except Exception` branch
(src/app.py line 203). -/
def emptyResult : FetchResult := ⟨[], false, ⟨0, 1, 1⟩⟩

/-- `_fetch_and_parse_page` (src/app.py lines 106-203), given the outcome of
the HTTP request (`.error msg` = `requests.get`/`raise_for_status` raised,
`.ok soup` = parsed markup).  The second component records whether the outer
`except Exception` branch ran and displayed its `st.error` banner. -/
def fetchAndParsePageE (lang : String) (fetched : Except String Soup) :
    FetchResult × Bool :=
  let base := get_base_url lang
  match fetched with
  | .error _ => (emptyResult, true)
  | .ok soup =>
      let items := extractRecords base soup
      match inspect soup items.length with
      | .ok (has_next, result_info) => (⟨items, has_next, result_info⟩, false)
      | .error _ => (emptyResult, true)

/-- The dict `_fetch_and_parse_page` hands to its caller. -/
def fetchAndParsePage (lang : String) (fetched : Except String Soup) :
    FetchResult :=
  (fetchAndParsePageE lang fetched).1

/-- The mutable state of the search loop in `main` (src/app.py lines
440-475): the `all_results` accumulator, plus observation fields recording
which pages were fetched, how many `time.sleep(0.5)` calls ran, and which
pages displayed an error banner, and the loop's `total_pages` variable. -/
structure SessionAcc where
  all_results : List ResultRecord
  fetched : List Nat
  sleeps : Nat
  errors : List Nat
  total_pages : Int
deriving DecidableEq

/-- Loop state before the first iteration (src/app.py lines 441-451):
empty accumulator, `total_pages = max_pages`. -/
def initAcc (maxPages : Nat) : SessionAcc := ⟨[], [], 0, [], (maxPages : Int)⟩

/-- The `while page_num <= max_pages` loop of `main` (src/app.py lines
453-475), recursing on `max_pages + 1 - page_num` (zero exactly when the
while condition fails).  Per iteration: fetch and record the page, extend
the accumulator, on page 1 clamp `total_pages` to `min(max_pages,
result_info["total_pages"])` and break when that is zero, break when
`has_next` is false, else sleep and continue.  `st.progress` is
display-only and not modelled. -/
def searchLoop (fetchFn : Nat → FetchResult × Bool) (maxPages : Nat) :
    Nat → Nat → SessionAcc → SessionAcc
  | 0, _, acc => acc
  | r + 1, page_num, acc =>
      let pd := (fetchFn page_num).1
      let err := (fetchFn page_num).2
      let acc1 : SessionAcc :=
        ⟨acc.all_results ++ pd.items,
         acc.fetched ++ [page_num],
         acc.sleeps,
         acc.errors ++ (if err then [page_num] else []),
         if page_num = 1 then min (maxPages : Int) pd.result_info.total_pages
         else acc.total_pages⟩
      if page_num = 1 ∧ acc1.total_pages = 0 then acc1
      else if pd.has_next = false then acc1
      else
        searchLoop fetchFn maxPages r (page_num + 1)
          ⟨acc1.all_results, acc1.fetched, acc1.sleeps + 1, acc1.errors,
           acc1.total_pages⟩

/-- One whole search run (src/app.py lines 450-475), starting at page 1. -/
def runSearch (fetchFn : Nat → FetchResult × Bool) (maxPages : Nat) :
    SessionAcc :=
  searchLoop fetchFn maxPages maxPages 1 (initAcc maxPages)

/-- The terminal report of `main` (src/app.py lines 481-484): a success
banner with the count when the accumulator is non-empty, else a "no
results" warning (`st.warning`, not `st.error`). -/
inductive SearchStatus where
  | success (count : Nat)
  | noResults
deriving DecidableEq

/-- Which banner `main` shows after the loop (src/app.py lines 481-484). -/
def reportStatus (acc : SessionAcc) : SearchStatus :=
  if acc.all_results.length > 0 then .success acc.all_results.length
  else .noResults

/-- Whether a fetched page lets the loop continue to the next page: the
page-1 zero-total break must not fire and `has_next` must be true.  The
loop sleeps exactly after such pages. -/
def continuesAfter (fetchFn : Nat → FetchResult × Bool) (maxPages : Nat)
    (p : Nat) : Bool :=
  (fetchFn p).1.has_next &&
    !(p == 1 &&
      min (maxPages : Int) ((fetchFn p).1.result_info.total_pages) == 0)

/-- A legacy-layout result block yielding one valid record. -/
def sampleLegacyBlock : ResultBlock :=
  ⟨some ⟨some ⟨"T1", some "https://x/a"⟩⟩, some ⟨some "snip"⟩, false,
   none, none, none, none⟩

/-- A card-layout result block yielding one valid record. -/
def sampleCardBlock : ResultBlock :=
  ⟨none, none, true, some "C1", none, some ⟨"", some "https://x/c"⟩, some "pub"⟩

/-- Markup with one extractable record but a non-numeric total value. -/
def c1soup : Soup :=
  ⟨[sampleLegacyBlock], [], some (some "abc"), some (some "10"),
   some (some "1")⟩

/-- Markup with no result blocks and metadata total 12, size 5, page 1. -/
def c2soup : Soup :=
  ⟨[], [], some (some "12"), some (some "5"), some (some "1")⟩

/-- Markup with zero records but metadata reporting five further pages. -/
def c5soup : Soup :=
  ⟨[], [], some (some "50"), some (some "10"), some (some "1")⟩

/-- Markup holding both a legacy and a card container. -/
def c4bothSoup : Soup := ⟨[sampleLegacyBlock], [sampleCardBlock], none, none, none⟩

/-- Markup with one record and metadata total 12, size 5, page 1. -/
def c7soup1 : Soup :=
  ⟨[sampleLegacyBlock], [], some (some "12"), some (some "5"), some (some "1")⟩

/-- Page oracle: page 1 succeeds with `c7soup1`, later pages fail in
transport. -/
def c7pages : Nat → Except String Soup :=
  fun n => if n = 1 then .ok c7soup1 else .error "boom"

/-- Page outcomes reporting three total pages, with another page exactly
below page 3. -/
def c6fetch : Nat → FetchResult × Bool :=
  fun n => (⟨[], decide (n < 3), ⟨30, (n : Int), 3⟩⟩, false)

/-- A page outcome that always reports another page. -/
def c8fetch : Nat → FetchResult × Bool :=
  fun _ => (⟨[⟨"t", "l", "", ""⟩], true, ⟨10, 1, 2⟩⟩, false)

/-- A page outcome with no records and no next page. -/
def c5okFetch : Nat → FetchResult × Bool := fun _ => (emptyResult, false)

/-- The fetch function of a session whose every page is the parse of
`c5soup`. -/
def c5cexFetch : Nat → FetchResult × Bool :=
  fun _ => fetchAndParsePageE "ja" (.ok c5soup)

/-- Floor division by a positive divisor of `a + b - 1` computes the
rational ceiling of `a / b`; this is the identity behind
`total_pages = (total + page_size - 1) // page_size`. -/
theorem ceil_div_eq_fdiv (a b : Int) (hb : 0 < b) :
    Int.ceil ((a : ℚ) / (b : ℚ)) = (a + b - 1).fdiv b := by
  have hb0 : b ≠ 0 := ne_of_gt hb
  have hbQ : (0 : ℚ) < (b : ℚ) := by exact_mod_cast hb
  rw [Int.fdiv_eq_ediv _ (le_of_lt hb)]
  rw [Int.ceil_eq_iff]
  have hdm := Int.ediv_add_emod (a + b - 1) b
  have hr0 := Int.emod_nonneg (a + b - 1) hb0
  have hrb := Int.emod_lt_of_pos (a + b - 1) hb
  set q := (a + b - 1) / b with hq
  set r := (a + b - 1) % b with hr
  constructor
  · rw [lt_div_iff₀ hbQ]
    have hlt : (q - 1) * b < a := by nlinarith
    calc ((q : ℚ) - 1) * (b : ℚ) = ((q - 1) * b : Int) := by push_cast; ring
    _ < (a : ℚ) := by exact_mod_cast hlt
  · rw [div_le_iff₀ hbQ]
    have hle : a ≤ q * b := by nlinarith
    calc (a : ℚ) ≤ ((q * b : Int) : ℚ) := by exact_mod_cast hle
    _ = (q : ℚ) * (b : ℚ) := by push_cast; ring

/-- C2: when the three pagination metadata values parse as integers with
positive total and page size, the computed total page count equals
ceil(totalResults / pageSize) and `has_next` equals
(currentPage < totalPages). -/
theorem c2_total_pages_is_ceil (soup : Soup) (rc : Nat)
    (total page_size current_page : Int)
    (hmeta : readMeta soup = .ok (total, page_size, current_page))
    (_htotal : 0 < total) (hsize : 0 < page_size) :
    inspect soup rc =
      .ok (decide (current_page < Int.ceil ((total : ℚ) / (page_size : ℚ))),
           ⟨total, current_page, Int.ceil ((total : ℚ) / (page_size : ℚ))⟩) := by
  have hc := ceil_div_eq_fdiv total page_size hsize
  unfold inspect inspectPagination
  rw [hmeta]
  simp only [bind, Except.bind, pyFloorDiv, if_neg (ne_of_gt hsize), pure,
    Except.pure, hc]

/-- Witness for C2 at total 12, size 5, page 1. -/
theorem c2_witness :
    readMeta c2soup = .ok (12, 5, 1) ∧
    inspect c2soup 0 =
      .ok (decide ((1 : Int) < Int.ceil ((12 : ℚ) / (5 : ℚ))),
           ⟨12, 1, Int.ceil ((12 : ℚ) / (5 : ℚ))⟩) :=
  ⟨by decide,
   c2_total_pages_is_ceil c2soup 0 12 5 1 (by decide) (by decide) (by decide)⟩

/-- C3: every record the extractor emits has a non-empty title and a
non-empty link; candidates failing the filter are never emitted. -/
theorem c3_records_have_title_and_link (base : String) (soup : Soup)
    (r : ResultRecord) (h : r ∈ extractRecords base soup) :
    r.title ≠ "" ∧ r.link ≠ "" := by
  obtain ⟨rb, -, hrb⟩ := List.mem_filterMap.mp h
  unfold extractBlock keepIfValid at hrb
  by_cases hc : (blockRecord base rb).title ≠ "" ∧ (blockRecord base rb).link ≠ ""
  · rw [if_pos hc] at hrb
    cases hrb
    exact hc
  · rw [if_neg hc] at hrb
    cases hrb

/-- Witness for C3 on a concrete legacy page. -/
theorem c3_witness :
    (⟨"T1", "https://x/a", "snip", ""⟩ : ResultRecord) ∈
        extractRecords jaBaseUrl c7soup1 ∧
    ("T1" : String) ≠ "" ∧ ("https://x/a" : String) ≠ "" :=
  ⟨by decide,
   c3_records_have_title_and_link jaBaseUrl c7soup1
     ⟨"T1", "https://x/a", "snip", ""⟩ (by decide)⟩

/-- C4: legacy containers take priority over card containers (card blocks
are consulted only when no legacy container exists), and within one block
the legacy caption strategy is attempted first, then the card strategy,
and a block matching neither yields no record. -/
theorem c4_layout_priority (base : String) :
    (∀ soup : Soup, soup.legacyBlocks ≠ [] →
      extractRecords base soup =
        soup.legacyBlocks.filterMap (extractBlock base)) ∧
    (∀ soup : Soup, soup.legacyBlocks = [] →
      extractRecords base soup =
        soup.cardBlocks.filterMap (extractBlock base)) ∧
    (∀ rb : ResultBlock, rb.caption ≠ none →
      extractBlock base rb = keepIfValid (legacyFields base rb)) ∧
    (∀ rb : ResultBlock, rb.caption = none → rb.cardTitleBlock = true →
      extractBlock base rb = keepIfValid (cardFields base rb)) ∧
    (∀ rb : ResultBlock, rb.caption = none → rb.cardTitleBlock = false →
      extractBlock base rb = none) := by
  refine ⟨?_, ?_, ?_, ?_, ?_⟩
  · intro soup h
    unfold extractRecords resultBlocks
    rw [if_neg (by simpa using h)]
  · intro soup h
    unfold extractRecords resultBlocks
    rw [if_pos (by simp [h])]
  · intro rb h
    unfold extractBlock blockRecord legacyFields
    cases hc : rb.caption with
    | none => exact absurd hc h
    | some c => rfl
  · intro rb h1 h2
    unfold extractBlock blockRecord cardFields
    rw [h1, h2]
    simp
  · intro rb h1 h2
    unfold extractBlock blockRecord keepIfValid
    rw [h1, h2]
    simp

/-- Witness for C4 on markup holding both container kinds and on blocks of
each shape. -/
theorem c4_witness :
    extractRecords jaBaseUrl c4bothSoup =
      c4bothSoup.legacyBlocks.filterMap (extractBlock jaBaseUrl) ∧
    extractBlock jaBaseUrl sampleLegacyBlock =
      keepIfValid (legacyFields jaBaseUrl sampleLegacyBlock) ∧
    extractBlock jaBaseUrl sampleCardBlock =
      keepIfValid (cardFields jaBaseUrl sampleCardBlock) :=
  ⟨(c4_layout_priority jaBaseUrl).1 c4bothSoup (by decide),
   (c4_layout_priority jaBaseUrl).2.2.1 sampleLegacyBlock (by decide),
   (c4_layout_priority jaBaseUrl).2.2.2.1 sampleCardBlock (by decide) (by decide)⟩

/-- C9: every language selects one of the two endpoints, and an
unrecognized language falls back to the primary (Japanese) endpoint
instead of failing. -/
theorem c9_language_fallback (lang : String) :
    (get_base_url lang = jaBaseUrl ∨ get_base_url lang = enBaseUrl) ∧
    (lang ≠ "ja" → lang ≠ "en" → get_base_url lang = jaBaseUrl) := by
  unfold get_base_url
  by_cases h1 : lang = "ja" <;> by_cases h2 : lang = "en" <;> simp [h1, h2]

/-- Witness for C9 at the unrecognized language "fr". -/
theorem c9_witness : get_base_url "fr" = jaBaseUrl :=
  (c9_language_fallback "fr").2 (by decide) (by decide)

/-- C1 (amended): a failed metadata lookup (element absent gives TypeError,
value attribute absent gives KeyError) is absorbed by the designed fallback
pageInfo with totalResults = recordCount, currentPage = 1, totalPages = 1
and has_next false, without raising; a present but non-numeric value
instead raises ValueError past that fallback, and the outer handler of
`_fetch_and_parse_page` returns the empty result (no items, totalResults
0, currentPage 1, totalPages 1, has_next false).  In both cases nothing
escapes `_fetch_and_parse_page`. -/
theorem c1_amended_pagination_fallback (soup : Soup) (rc : Nat) (lang : String) :
    (soup.totalAttr = none → inspectPagination soup = .error .typeError) ∧
    (soup.totalAttr = some none → inspectPagination soup = .error .keyError) ∧
    (inspectPagination soup = .error .typeError ∨
        inspectPagination soup = .error .keyError →
      inspect soup rc = .ok (false, fallbackInfo rc)) ∧
    (inspectPagination soup = .error .valueError →
      fetchAndParsePageE lang (.ok soup) = (emptyResult, true)) := by
  refine ⟨?_, ?_, ?_, ?_⟩
  · intro h
    unfold inspectPagination readMeta getAttrValue
    rw [h]
    rfl
  · intro h
    unfold inspectPagination readMeta getAttrValue
    rw [h]
    rfl
  · intro h
    unfold inspect
    rcases h with h | h <;> rw [h]
  · intro h
    have hi : inspect soup (extractRecords (get_base_url lang) soup).length =
        Except.error .valueError := by
      unfold inspect
      rw [h]
    simp [fetchAndParsePageE, hi]

/-- Witness for C1 (amended): a missing total element yields the
recordCount fallback; a non-numeric total yields the empty result. -/
theorem c1_amended_witness :
    inspect (⟨[], [], none, some (some "10"), some (some "1")⟩ : Soup) 4 =
      .ok (false, fallbackInfo 4) ∧
    fetchAndParsePageE "ja" (.ok c1soup) = (emptyResult, true) :=
  ⟨(c1_amended_pagination_fallback ⟨[], [], none, some (some "10"),
      some (some "1")⟩ 4 "ja").2.2.1
    (Or.inl ((c1_amended_pagination_fallback ⟨[], [], none, some (some "10"),
      some (some "1")⟩ 4 "ja").1 rfl)),
   (c1_amended_pagination_fallback c1soup 0 "ja").2.2.2 (by decide)⟩

/-- C1 is false as stated: on markup carrying one extractable record and a
present but non-numeric total value, the pagination code raises ValueError
out of the metadata fallback, and `_fetch_and_parse_page` returns the
empty result with totalResults 0 — not the claimed pageInfo with
totalResults = recordCount = 1. -/
theorem c1_counterexample :
    (extractRecords (get_base_url "ja") c1soup).length = 1 ∧
    inspect c1soup 1 = .error .valueError ∧
    fetchAndParsePage "ja" (.ok c1soup) = emptyResult :=
  ⟨by decide, by decide, by decide⟩

/-- C10: `_fetch_and_parse_page` always hands its caller an
items/has_next/result_info triple and never propagates an exception: a
transport failure or an uncaught parsing exception yields the empty
fallback result, and otherwise the parsed triple is returned. -/
theorem c10_fetch_parse_total (lang : String) (o : Except String Soup) :
    (∀ msg, o = .error msg → fetchAndParsePageE lang o = (emptyResult, true)) ∧
    (∀ soup e, o = .ok soup →
      inspect soup (extractRecords (get_base_url lang) soup).length =
        .error e →
      fetchAndParsePageE lang o = (emptyResult, true)) ∧
    (∀ soup hn ri, o = .ok soup →
      inspect soup (extractRecords (get_base_url lang) soup).length =
        .ok (hn, ri) →
      fetchAndParsePage lang o =
        ⟨extractRecords (get_base_url lang) soup, hn, ri⟩) := by
  refine ⟨?_, ?_, ?_⟩
  · intro msg h
    subst h
    rfl
  · intro soup e h hi
    subst h
    simp [fetchAndParsePageE, hi]
  · intro soup hn ri h hi
    subst h
    simp [fetchAndParsePage, fetchAndParsePageE, hi]

/-- Witness for C10 at a transport failure. -/
theorem c10_witness :
    fetchAndParsePageE "ja" (.error "boom") = (emptyResult, true) :=
  (c10_fetch_parse_total "ja" (.error "boom")).1 "boom" rfl

/-- Loop segment lemma: starting at a page `p ≥ 2`, if every page before
`s` reports another page and page `s` does not, the loop fetches exactly
pages `p..s`, sleeps once per continuing page, and accumulates the pages'
items and error banners in order. -/
theorem searchLoop_run (fetchFn : Nat → FetchResult × Bool) (maxPages s : Nat)
    (hsm : s ≤ maxPages) (hstop : (fetchFn s).1.has_next = false) :
    ∀ r p acc, 2 ≤ p → p ≤ s → r = maxPages + 1 - p →
      (∀ n, p ≤ n → n < s → (fetchFn n).1.has_next = true) →
      searchLoop fetchFn maxPages r p acc =
        ⟨acc.all_results ++
           (List.range' p (s + 1 - p)).flatMap (fun n => (fetchFn n).1.items),
         acc.fetched ++ List.range' p (s + 1 - p),
         acc.sleeps + (s - p),
         acc.errors ++
           (List.range' p (s + 1 - p)).filter (fun n => (fetchFn n).2),
         acc.total_pages⟩ := by
  intro r
  induction r with
  | zero =>
    intro p acc hp2 hps hr hnext
    omega
  | succ r ih =>
    intro p acc hp2 hps hr hnext
    have hp1 : ¬(p = 1) := by omega
    rcases Nat.lt_or_ge p s with hlt | hge
    · have hn : (fetchFn p).1.has_next = true := hnext p (le_refl p) hlt
      have hrec := ih (p + 1)
        ⟨acc.all_results ++ (fetchFn p).1.items,
         acc.fetched ++ [p],
         acc.sleeps + 1,
         acc.errors ++ (if (fetchFn p).2 then [p] else []),
         acc.total_pages⟩
        (by omega) (by omega) (by omega)
        (fun n h1 h2 => hnext n (by omega) h2)
      have hs1 : s + 1 - p = (s - p) + 1 := by omega
      have hs2 : s + 1 - (p + 1) = s - p := by omega
      rw [hs2] at hrec
      simp only [searchLoop, hn, hp1, false_and, if_false]
      rw [if_neg (by simp), hrec]
      simp only [hs1, List.range'_succ, List.flatMap_cons, List.filter_cons,
        SessionAcc.mk.injEq]
      refine ⟨by simp, by simp, by omega, ?_, trivial⟩
      by_cases he : (fetchFn p).2 <;> simp [he]
    · have hpe : p = s := by omega
      subst hpe
      have hs1 : p + 1 - p = 1 := by omega
      simp only [searchLoop, hstop, hp1, false_and, if_false]
      simp only [hs1, List.range'_succ, List.range', List.flatMap_cons,
        List.flatMap_nil, List.filter_cons, List.filter_nil,
        SessionAcc.mk.injEq]
      simp

/-- The loop sleeps exactly after those fetched pages that let it
continue. -/
theorem searchLoop_sleeps_filter (fetchFn : Nat → FetchResult × Bool)
    (maxPages : Nat) :
    ∀ r p acc, ∃ new : List Nat,
      (searchLoop fetchFn maxPages r p acc).fetched = acc.fetched ++ new ∧
      (searchLoop fetchFn maxPages r p acc).sleeps =
        acc.sleeps + (new.filter (continuesAfter fetchFn maxPages)).length := by
  intro r
  induction r with
  | zero =>
    intro p acc
    exact ⟨[], by simp [searchLoop], by simp [searchLoop]⟩
  | succ r ih =>
    intro p acc
    by_cases h1 : p = 1 ∧
        min (maxPages : Int) (fetchFn p).1.result_info.total_pages = 0
    · obtain ⟨hp1, hmin⟩ := h1
      subst hp1
      refine ⟨[1], ?_, ?_⟩ <;>
        simp [searchLoop, hmin, continuesAfter]
    · by_cases h2 : (fetchFn p).1.has_next = false
      · refine ⟨[p], ?_, ?_⟩ <;>
          simp [searchLoop, h1, h2, continuesAfter]
      · have h1' : ¬(p = 1 ∧
            (if p = 1 then min (maxPages : Int) (fetchFn p).1.result_info.total_pages
             else acc.total_pages) = 0) := by
          rintro ⟨hp, hm⟩
          rw [if_pos hp] at hm
          exact h1 ⟨hp, hm⟩
        have hstep : searchLoop fetchFn maxPages (r + 1) p acc =
            searchLoop fetchFn maxPages r (p + 1)
              ⟨acc.all_results ++ (fetchFn p).1.items,
               acc.fetched ++ [p],
               acc.sleeps + 1,
               acc.errors ++ (if (fetchFn p).2 then [p] else []),
               if p = 1 then min (maxPages : Int) (fetchFn p).1.result_info.total_pages
               else acc.total_pages⟩ := by
          simp only [searchLoop]
          rw [if_neg h1', if_neg h2]
        obtain ⟨new, hf, hsl⟩ := ih (p + 1)
          ⟨acc.all_results ++ (fetchFn p).1.items,
           acc.fetched ++ [p],
           acc.sleeps + 1,
           acc.errors ++ (if (fetchFn p).2 then [p] else []),
           if p = 1 then min (maxPages : Int) (fetchFn p).1.result_info.total_pages
           else acc.total_pages⟩
        have hcont : continuesAfter fetchFn maxPages p = true := by
          have hn : (fetchFn p).1.has_next = true := by
            cases hx : (fetchFn p).1.has_next
            · exact absurd hx h2
            · rfl
          have hb : (p == 1 &&
              (min (maxPages : Int)
                ((fetchFn p).1.result_info.total_pages) == 0)) = false := by
            by_cases hp : p = 1
            · subst hp
              have hm : min ((maxPages : Nat) : Int)
                  (fetchFn 1).1.result_info.total_pages ≠ 0 :=
                fun hm => h1 ⟨rfl, hm⟩
              simp [hm]
            · simp [hp]
          simp [continuesAfter, hn, hb]
        refine ⟨p :: new, ?_, ?_⟩
        · rw [hstep, hf]
          simp
        · rw [hstep, hsl]
          simp [List.filter_cons, hcont]
          omega

/-- A page outcome reporting another page cannot have come from an error
branch of `_fetch_and_parse_page`: both error paths force `has_next`
false. -/
theorem fetch_has_next_no_error (lang : String) (o : Except String Soup)
    (h : (fetchAndParsePageE lang o).1.has_next = true) :
    (fetchAndParsePageE lang o).2 = false := by
  cases o with
  | error msg => simp [fetchAndParsePageE, emptyResult] at h
  | ok soup =>
    cases hi : inspect soup (extractRecords (get_base_url lang) soup).length with
    | ok v =>
      obtain ⟨hn, ri⟩ := v
      simp [fetchAndParsePageE, hi]
    | error e =>
      simp [fetchAndParsePageE, hi, emptyResult] at h

/-- C8 (amended): the session sleeps exactly after those fetched pages
whose outcome lets the loop continue (`has_next` true and no page-1
zero-total break).  Hence a delay separates any two consecutive fetches and
no delay follows the final page when the session stops because `has_next`
is false or the zero-total break fires; but when the session stops by
exhausting the configured maximum page count, a trailing delay does follow
the final fetched page. -/
theorem c8_amended_sleep_after_continuing_pages
    (fetchFn : Nat → FetchResult × Bool) (maxPages : Nat) :
    (runSearch fetchFn maxPages).sleeps =
      ((runSearch fetchFn maxPages).fetched.filter
        (continuesAfter fetchFn maxPages)).length := by
  obtain ⟨new, hf, hsl⟩ :=
    searchLoop_sleeps_filter fetchFn maxPages maxPages 1 (initAcc maxPages)
  unfold runSearch
  rw [hsl, hf]
  simp [initAcc]

/-- C5 (amended): when page 1 yields zero records and reports no next
page (as the metadata fallback always does), the session stops immediately
after page 1 with an empty accumulator and the outcome is reported as "no
results" (a warning, not an error).  Zero records alone does not stop the
session: termination after page 1 is decided by `has_next` and the
total-pages clamp, not by the record count. -/
theorem c5_amended_empty_first_page (fetchFn : Nat → FetchResult × Bool)
    (maxPages : Nat) (hm : 1 ≤ maxPages)
    (hitems : (fetchFn 1).1.items = [])
    (hnext : (fetchFn 1).1.has_next = false) :
    (runSearch fetchFn maxPages).fetched = [1] ∧
    (runSearch fetchFn maxPages).all_results = [] ∧
    reportStatus (runSearch fetchFn maxPages) = .noResults := by
  obtain ⟨m, rfl⟩ := Nat.exists_eq_succ_of_ne_zero (show maxPages ≠ 0 by omega)
  unfold runSearch
  by_cases hz : min (((m + 1 : Nat)) : Int) (fetchFn 1).1.result_info.total_pages = 0
  · simp [searchLoop, initAcc, hz, hitems, hnext, reportStatus]
  · simp [searchLoop, initAcc, hz, hitems, hnext, reportStatus]

/-- First loop iteration when page 1 lets the session continue. -/
theorem runSearch_step1 (fetchFn : Nat → FetchResult × Bool) (m : Nat)
    (hz : ¬(min (((m + 1 : Nat)) : Int)
      (fetchFn 1).1.result_info.total_pages = 0))
    (hn : (fetchFn 1).1.has_next = true) :
    runSearch fetchFn (m + 1) =
      searchLoop fetchFn (m + 1) m 2
        ⟨(fetchFn 1).1.items, [1], 1,
         (if (fetchFn 1).2 then [1] else []),
         min (((m + 1 : Nat)) : Int) (fetchFn 1).1.result_info.total_pages⟩ := by
  unfold runSearch
  simp only [searchLoop, initAcc, eq_self_iff_true, true_and, if_true]
  rw [if_neg hz, if_neg (by simp [hn])]
  simp

/-- First loop iteration when page 1 reports no next page: the session
stops at page 1 (under either break) without sleeping. -/
theorem runSearch_stop1 (fetchFn : Nat → FetchResult × Bool) (m : Nat)
    (hn : (fetchFn 1).1.has_next = false) :
    runSearch fetchFn (m + 1) =
      ⟨(fetchFn 1).1.items, [1], 0,
       (if (fetchFn 1).2 then [1] else []),
       min (((m + 1 : Nat)) : Int) (fetchFn 1).1.result_info.total_pages⟩ := by
  unfold runSearch
  simp only [searchLoop, initAcc, eq_self_iff_true, true_and, if_true]
  by_cases hz : min (((m + 1 : Nat)) : Int)
      (fetchFn 1).1.result_info.total_pages = 0
  · rw [if_pos hz]
    simp
  · rw [if_neg hz, if_pos hn]
    simp

/-- C6: when the configured maximum page count exceeds the true
total-page count `T` reported by page 1's pagination metadata (pages being
consistent: each page `n ≤ T` reports another page exactly when `n < T`),
the session fetches exactly pages `1..T` and no more. -/
theorem c6_ceiling_clamp (fetchFn : Nat → FetchResult × Bool)
    (maxPages T : Nat) (hT1 : 1 ≤ T) (hTm : T < maxPages)
    (htp : (fetchFn 1).1.result_info.total_pages = (T : Int))
    (hnext : ∀ n, 1 ≤ n → n ≤ T → (fetchFn n).1.has_next = decide (n < T)) :
    (runSearch fetchFn maxPages).fetched = List.range' 1 T := by
  obtain ⟨m, rfl⟩ := Nat.exists_eq_succ_of_ne_zero (show maxPages ≠ 0 by omega)
  have hmin : min (((m + 1 : Nat)) : Int) (fetchFn 1).1.result_info.total_pages
      = (T : Int) := by
    rw [htp]
    have hle : (T : Int) ≤ ((m + 1 : Nat) : Int) := by exact_mod_cast le_of_lt hTm
    omega
  have hzne : ¬(min (((m + 1 : Nat)) : Int)
      (fetchFn 1).1.result_info.total_pages = 0) := by
    rw [hmin]
    exact_mod_cast (show (T : Int) ≠ 0 by exact_mod_cast (by omega : T ≠ 0))
  rcases Nat.lt_or_ge 1 T with hT2 | hTle
  · have h1next : (fetchFn 1).1.has_next = true := by
      rw [hnext 1 (le_refl 1) (by omega)]
      simp [hT2]
    have hstop : (fetchFn T).1.has_next = false := by
      rw [hnext T (by omega) (le_refl T)]
      simp
    have hrun := searchLoop_run fetchFn (m + 1) T (by omega) hstop m 2
      ⟨(fetchFn 1).1.items, [1], 1,
       (if (fetchFn 1).2 then [1] else []),
       min (((m + 1 : Nat)) : Int) (fetchFn 1).1.result_info.total_pages⟩
      (le_refl 2) (by omega) (by omega)
      (fun n h1 h2 => by
        rw [hnext n (by omega) (by omega)]
        simp [h2])
    rw [runSearch_step1 fetchFn m hzne h1next, hrun]
    have hT3 : T + 1 - 2 = T - 1 := by omega
    have hT4 : T = (T - 1) + 1 := by omega
    rw [hT3]
    conv_rhs => rw [hT4, List.range'_succ]
    simp
  · have hTeq : T = 1 := by omega
    subst hTeq
    have h1next : (fetchFn 1).1.has_next = false := by
      rw [hnext 1 (le_refl 1) (le_refl 1)]
      simp
    rw [runSearch_stop1 fetchFn m h1next]
    rfl

/-- C7: when fetching page `n` fails in transport, the session terminates
at page `n`, the records accumulated from pages `1..n-1` are preserved and
returned unchanged, and page `n` is the one (and only) page whose failure
banner is surfaced. -/
theorem c7_transport_failure (pages : Nat → Except String Soup)
    (lang msg : String) (maxPages n : Nat)
    (hn1 : 1 ≤ n) (hnm : n ≤ maxPages)
    (hfail : pages n = .error msg)
    (hok : ∀ k, 1 ≤ k → k < n →
      (fetchAndParsePage lang (pages k)).has_next = true)
    (hclamp : ¬(min ((maxPages : Nat) : Int)
      (fetchAndParsePage lang (pages 1)).result_info.total_pages = 0)) :
    (runSearch (fun k => fetchAndParsePageE lang (pages k)) maxPages).fetched
        = List.range' 1 n ∧
    (runSearch (fun k => fetchAndParsePageE lang (pages k)) maxPages).all_results
        = (List.range' 1 (n - 1)).flatMap
            (fun k => (fetchAndParsePage lang (pages k)).items) ∧
    (runSearch (fun k => fetchAndParsePageE lang (pages k)) maxPages).errors
        = [n] := by
  obtain ⟨m, rfl⟩ := Nat.exists_eq_succ_of_ne_zero (show maxPages ≠ 0 by omega)
  have hfailn : fetchAndParsePageE lang (pages n) = (emptyResult, true) := by
    rw [hfail]
    rfl
  rcases Nat.lt_or_ge 1 n with hn2 | hnle
  · have h1next : (fetchAndParsePageE lang (pages 1)).1.has_next = true :=
      hok 1 (le_refl 1) hn2
    have h1err : (fetchAndParsePageE lang (pages 1)).2 = false :=
      fetch_has_next_no_error lang (pages 1) h1next
    have hstop : (fetchAndParsePageE lang (pages n)).1.has_next = false := by
      rw [hfailn]
      rfl
    have hrun := searchLoop_run (fun k => fetchAndParsePageE lang (pages k))
      (m + 1) n (by omega) hstop m 2
      ⟨(fetchAndParsePageE lang (pages 1)).1.items, [1], 1,
       (if (fetchAndParsePageE lang (pages 1)).2 then [1] else []),
       min (((m + 1 : Nat)) : Int)
         (fetchAndParsePageE lang (pages 1)).1.result_info.total_pages⟩
      (le_refl 2) (by omega) (by omega)
      (fun k hk1 hk2 => hok k (by omega) hk2)
    rw [runSearch_step1 (fun k => fetchAndParsePageE lang (pages k)) m hclamp
        h1next, hrun]
    have hs3 : n + 1 - 2 = (n - 2) + 1 := by omega
    have hlast : 2 + 1 * (n - 2) = n := by omega
    have hsplit : List.range' 2 (n + 1 - 2) = List.range' 2 (n - 2) ++ [n] := by
      rw [hs3, List.range'_concat, hlast]
    have hfirst : List.range' 1 (n - 1) = 1 :: List.range' 2 (n - 2) := by
      have h4 : n - 1 = (n - 2) + 1 := by omega
      rw [h4, List.range'_succ]
    have hfiltnil : List.filter
        (fun k => (fetchAndParsePageE lang (pages k)).2)
        (List.range' 2 (n - 2)) = [] := by
      rw [List.filter_eq_nil_iff]
      intro k hk
      obtain ⟨i, hi, hki⟩ := List.mem_range'.mp hk
      have hkn : k < n := by omega
      have hke := fetch_has_next_no_error lang (pages k) (hok k (by omega) hkn)
      simp [hke]
    dsimp only
    refine ⟨?_, ?_, ?_⟩
    · have h6 : n + 1 - 2 = n - 1 := by omega
      rw [h6]
      have h5 : n = (n - 1) + 1 := by omega
      conv_rhs => rw [h5, List.range'_succ]
      simp
    · rw [hsplit, hfirst]
      simp only [List.flatMap_append, List.flatMap_cons, List.flatMap_nil,
        hfailn, fetchAndParsePage, emptyResult]
      simp
    · rw [hsplit]
      simp only [List.filter_append, hfiltnil, List.filter_cons,
        List.filter_nil, hfailn, h1err]
      simp
  · have hne : n = 1 := by omega
    subst hne
    have hstop : ((fun k => fetchAndParsePageE lang (pages k)) 1).1.has_next
        = false := by
      show (fetchAndParsePageE lang (pages 1)).1.has_next = false
      rw [hfailn]
      rfl
    rw [runSearch_stop1 (fun k => fetchAndParsePageE lang (pages k)) m hstop]
    refine ⟨rfl, ?_, ?_⟩
    · dsimp only
      rw [hfailn]
      rfl
    · dsimp only
      rw [hfailn]
      rfl

/-- Witness for C5 (amended) on a fetch with no records and no next
page. -/
theorem c5_amended_witness :
    (runSearch c5okFetch 3).fetched = [1] ∧
    (runSearch c5okFetch 3).all_results = [] ∧
    reportStatus (runSearch c5okFetch 3) = .noResults :=
  c5_amended_empty_first_page c5okFetch 3 (by decide) rfl rfl

/-- C5 is false as stated: markup whose page 1 yields zero records but
whose pagination metadata reports further pages does not terminate the
session after page 1 — pages 2 and 3 are fetched as well. -/
theorem c5_counterexample :
    (fetchAndParsePage "ja" (.ok c5soup)).items = [] ∧
    (runSearch c5cexFetch 3).fetched = [1, 2, 3] :=
  ⟨by decide, by decide⟩

/-- Witness for C6 with configured maximum 10 and true total 3. -/
theorem c6_witness :
    (runSearch c6fetch 10).fetched = List.range' 1 3 :=
  c6_ceiling_clamp c6fetch 10 3 (by decide) (by decide) rfl
    (fun n h1 h2 => rfl)

/-- Witness for C7: page 1 succeeds, page 2 fails in transport. -/
theorem c7_witness :
    (runSearch (fun k => fetchAndParsePageE "ja" (c7pages k)) 5).fetched
        = List.range' 1 2 ∧
    (runSearch (fun k => fetchAndParsePageE "ja" (c7pages k)) 5).all_results
        = (List.range' 1 1).flatMap
            (fun k => (fetchAndParsePage "ja" (c7pages k)).items) ∧
    (runSearch (fun k => fetchAndParsePageE "ja" (c7pages k)) 5).errors = [2] :=
  c7_transport_failure c7pages "ja" "boom" 5 2 (by decide) (by decide)
    (by decide)
    (fun k h1 h2 => by
      have hk : k = 1 := by omega
      subst hk
      decide)
    (by decide)

/-- C8 is false as stated: with configured maximum 1 and a page 1 that
reports another page, the session fetches only page 1 (its final page) yet
sleeps once after it. -/
theorem c8_counterexample :
    (runSearch c8fetch 1).fetched = [1] ∧ (runSearch c8fetch 1).sleeps = 1 :=
  ⟨by decide, by decide⟩

end WolSearch
